import Mathlib

/-!
Shallow embedding of the referee rating engine.

Sources:
* `src/algorithm/rating_algorithm .py` — difficulty score, difficulty category,
  weight tables, error severity index, final rating, consistency bonus,
  form/season averages, and the two-pass pipeline `rate_dataframe`.
* `src/algorithm/match_difficulty .py` — the ratio-based subscores
  (`compute_foul_intensity`, `compute_var_intensity`, `compute_dissent_score`).

Numbers are modelled as exact rationals (`ℚ`).  Python's `round(x, n)` is
modelled by `roundTo n x = ⌊x·10ⁿ + 1/2⌋ / 10ⁿ`; Python breaks exact .5 ties
to even where this rounds up, a difference that is immaterial to every
statement below (no statement probes an exact tie).  A per-event record is a
structure of `Option ℚ` fields because the source reads every field with
`row.get(field, 0)`, i.e. fields may be absent.
-/

namespace RefRating

/-- Per-event input record (`row` in the source).  Every field the two source
files read through `row.get(f, 0)` for the scoring pipeline. -/
structure Row where
  crowd_pressure : Option ℚ := none
  attendance_pct : Option ℚ := none
  rivalry_intensity : Option ℚ := none
  match_importance : Option ℚ := none
  var_overturns : Option ℚ := none
  foul_management : Option ℚ := none
  decision_accuracy : Option ℚ := none
  minor_errors : Option ℚ := none
  moderate_errors : Option ℚ := none
  major_errors : Option ℚ := none
deriving DecidableEq

/-- The seven scored features (keys shared by the difficulty-weight dict and
the per-mode rating-weight dicts in `rating_algorithm .py`). -/
inductive Feature
  | decision_accuracy
  | foul_management
  | var_overturns
  | crowd_pressure
  | match_importance
  | attendance_pct
  | rivalry_intensity
deriving DecidableEq

/-- `row.get(f, 0)`: read a feature, defaulting an absent field to 0. -/
def Row.getF (row : Row) : Feature → ℚ
  | .decision_accuracy => row.decision_accuracy.getD 0
  | .foul_management => row.foul_management.getD 0
  | .var_overturns => row.var_overturns.getD 0
  | .crowd_pressure => row.crowd_pressure.getD 0
  | .match_importance => row.match_importance.getD 0
  | .attendance_pct => row.attendance_pct.getD 0
  | .rivalry_intensity => row.rivalry_intensity.getD 0

/-- Key order of the `weights` dict inside `compute_match_difficulty`. -/
def mdsFeatList : List Feature :=
  [.crowd_pressure, .attendance_pct, .rivalry_intensity, .match_importance,
   .var_overturns, .foul_management, .decision_accuracy]

/-- The `weights` dict inside `compute_match_difficulty`
(`rating_algorithm .py`, lines 29-37). -/
def difficultyWeights : Feature → ℚ
  | .crowd_pressure => 20/100
  | .attendance_pct => 15/100
  | .rivalry_intensity => 20/100
  | .match_importance => 25/100
  | .var_overturns => 5/100
  | .foul_management => 5/100
  | .decision_accuracy => 10/100

/-- `compute_match_difficulty` (`rating_algorithm .py`, lines 24-40):
`score = sum(row.get(f, 0) * w for f, w in weights.items())`,
then `max(0.0, min(1.0, score))`. -/
def compute_match_difficulty (row : Row) : ℚ :=
  max 0 (min 1 ((mdsFeatList.map (fun f => row.getF f * difficultyWeights f)).sum))

/-- Difficulty regime label. -/
inductive Mode
  | easy
  | medium
  | hard
deriving DecidableEq

/-- `difficulty_category` (`rating_algorithm .py`, lines 47-53). -/
def difficulty_category (mds : ℚ) : Mode :=
  if mds < 45/100 then Mode.easy
  else if mds > 55/100 then Mode.hard
  else Mode.medium

/-- The per-mode `WEIGHTS` table (`rating_algorithm .py`, lines 60-88). -/
def WEIGHTS : Mode → Feature → ℚ
  | .easy, .decision_accuracy => 50/100
  | .easy, .foul_management => 20/100
  | .easy, .var_overturns => 5/100
  | .easy, .crowd_pressure => 5/100
  | .easy, .match_importance => 5/100
  | .easy, .attendance_pct => 5/100
  | .easy, .rivalry_intensity => 10/100
  | .medium, .decision_accuracy => 35/100
  | .medium, .foul_management => 25/100
  | .medium, .var_overturns => 10/100
  | .medium, .crowd_pressure => 10/100
  | .medium, .match_importance => 10/100
  | .medium, .attendance_pct => 5/100
  | .medium, .rivalry_intensity => 5/100
  | .hard, .decision_accuracy => 25/100
  | .hard, .foul_management => 25/100
  | .hard, .var_overturns => 15/100
  | .hard, .crowd_pressure => 15/100
  | .hard, .match_importance => 10/100
  | .hard, .attendance_pct => 5/100
  | .hard, .rivalry_intensity => 5/100

/-- Key order of each per-mode dict in `WEIGHTS` (identical for the three). -/
def featList : List Feature :=
  [.decision_accuracy, .foul_management, .var_overturns, .crowd_pressure,
   .match_importance, .attendance_pct, .rivalry_intensity]

/-- `compute_error_severity_index` (`rating_algorithm .py`, lines 95-113):
`minor*(-0.05) + moderate*(-0.15) + major*(-0.40)`, returned unchanged. -/
def compute_error_severity_index (row : Row) : ℚ :=
  row.minor_errors.getD 0 * (-(5/100)) +
  row.moderate_errors.getD 0 * (-(15/100)) +
  row.major_errors.getD 0 * (-(40/100))

/-- Python `round(x, n)` (half-up model; see file header). -/
def roundTo (n : ℕ) (x : ℚ) : ℚ := ((x * 10 ^ n + 1/2).floor : ℚ) / 10 ^ n

/-- The dict returned by `compute_final_rating`. -/
structure RatingResult where
  mds : ℚ
  difficulty_mode : Mode
  final_rating : ℚ
deriving DecidableEq

/-- `base_rating` inside `compute_final_rating` (`rating_algorithm .py`,
line 136): `sum(row.get(f, 0) * w[f] * 10 for f in w)`. -/
def base_rating (row : Row) (mode : Mode) : ℚ :=
  (featList.map (fun f => row.getF f * WEIGHTS mode f * 10)).sum

/-- `compute_final_rating` (`rating_algorithm .py`, lines 120-152). -/
def compute_final_rating (row : Row) (esi_penalty consistency_bonus : ℚ) : RatingResult :=
  let mds := compute_match_difficulty row
  let mode := difficulty_category mds
  let fr0 := base_rating row mode + esi_penalty + consistency_bonus
  let fr1 := if mode = Mode.easy then max fr0 (65/10) else fr0
  let fr2 := max 1 (min 10 fr1)
  { mds := roundTo 3 mds, difficulty_mode := mode, final_rating := roundTo 2 fr2 }

/-- Sample mean of a list of ratings (pandas `mean`). -/
def sampleMean (l : List ℚ) : ℚ := l.sum / l.length

/-- Sample variance with `ddof = 1`, i.e. the square of the sample standard
deviation computed by pandas `rolling(window=5).std()`. -/
def sampleVar (l : List ℚ) : ℚ :=
  ((l.map (fun x => (x - sampleMean l) ^ 2)).sum) / ((l.length : ℚ) - 1)

/-- The trailing 5-window ending at position `i` (positions `i-4 .. i`). -/
def window5 (l : List ℚ) (i : ℕ) : List ℚ := (l.drop (i - 4)).take 5

/-- The std-band mapping of `compute_consistency_bonus` (`rating_algorithm
.py`, lines 181-188).  The source compares the sample standard deviation
`std_val` against 0.15 / 0.30 / 0.50 with strict `<`; since the variance is
non-negative and the cut-offs positive, `std < c` iff `var < c²`, which is the
decidable form used here (the equivalence with the `√`-form is proved in
`stdBandBonus_eq_sqrt_band` below). -/
def stdBandBonus (v : ℚ) : ℚ :=
  if v < (15/100) ^ 2 then 20/100
  else if v < (30/100) ^ 2 then 10/100
  else if v < (50/100) ^ 2 then 0
  else -(15/100)

/-- Per-position core of `compute_consistency_bonus` (`rating_algorithm .py`,
lines 159-190): given one referee's final ratings in chronological order,
position `i` gets 0 when `i < 4`, otherwise the std-band value of its
trailing 5-window. -/
def compute_consistency_bonus (ratings : List ℚ) (i : ℕ) : ℚ :=
  if i < 4 then 0 else stdBandBonus (sampleVar (window5 ratings i))

/-- One dataframe row of the pipeline: identity fields plus the scored
record. -/
structure Event where
  referee : ℕ
  match_id : ℕ
  row : Row
deriving DecidableEq

/-- Stable insertion (ascending `match_id`): `x` goes before the first
element with a strictly larger key, so equal keys keep input order. -/
def insertByMatchId (x : ℕ × Event × ℚ) :
    List (ℕ × Event × ℚ) → List (ℕ × Event × ℚ)
  | [] => [x]
  | y :: ys =>
    if y.2.1.match_id ≤ x.2.1.match_id then y :: insertByMatchId x ys
    else x :: y :: ys

/-- `sort_values("match_id")` on an indexed, rated event list. -/
def sortByMatchId (l : List (ℕ × Event × ℚ)) : List (ℕ × Event × ℚ) :=
  l.foldl (fun acc x => insertByMatchId x acc) []

/-- The consistency bonus the pipeline assigns to the event at dataframe
index `idx` (`compute_consistency_bonus` in the source, which groups by
referee, sorts by `match_id`, and maps each position through the std bands;
`base` is the step-1 `final_rating` column). -/
def bonusAt (events : List Event) (base : List ℚ) (idx : ℕ) : ℚ :=
  match events[idx]? with
  | none => 0
  | some e =>
    let indexed := (List.range events.length).zip (events.zip base)
    let hist := sortByMatchId (indexed.filter (fun p => p.2.1.referee == e.referee))
    match hist.findIdx? (fun p => p.1 == idx) with
    | none => 0
    | some i => compute_consistency_bonus (hist.map (fun p => p.2.2)) i

/-- `rate_dataframe` (`rating_algorithm .py`, lines 221-256), restricted to
the rating columns: step 1 computes per-event final ratings with bonus 0,
step 2 derives the consistency bonuses from that column, step 3 recomputes
`compute_final_rating` with each event's bonus. -/
def rate_dataframe (events : List Event) : List RatingResult :=
  let base := events.map
    (fun e => (compute_final_rating e.row (compute_error_severity_index e.row) 0).final_rating)
  ((List.range events.length).zip events).map
    (fun p => compute_final_rating p.2.row (compute_error_severity_index p.2.row)
      (bonusAt events base p.1))

/-- `_clamp01` (`match_difficulty .py`, lines 36-37). -/
def _clamp01 (x : ℚ) : ℚ := max 0 (min 1 x)

/-- `compute_foul_intensity` (`match_difficulty .py`, lines 66-74). -/
def compute_foul_intensity (avg_fouls_home avg_fouls_away league_avg_fouls : ℚ) : ℚ :=
  if league_avg_fouls ≤ 0 then 0
  else _clamp01 (((avg_fouls_home + avg_fouls_away) / 2) / league_avg_fouls)

/-- `compute_var_intensity` (`match_difficulty .py`, lines 76-83). -/
def compute_var_intensity (team1_var team2_var league_avg_var : ℚ) : ℚ :=
  if league_avg_var ≤ 0 then 0
  else _clamp01 (((team1_var + team2_var) / 2) / league_avg_var)

/-- `compute_dissent_score` (`match_difficulty .py`, lines 85-93). -/
def compute_dissent_score (team_dissent_cards manager_dissent_cards league_avg_dissent : ℚ) : ℚ :=
  if league_avg_dissent ≤ 0 then 0
  else _clamp01 ((team_dissent_cards + manager_dissent_cards) / league_avg_dissent)

/-! ### Definitions modelled from the spec (for refinement comparisons)

The code under `src/` never scales the error penalty by difficulty and never
adjusts weights by behavioral indicators; the following definitions follow
the spec's words so the two can be compared. -/

/-- Modelled from the spec: the scaled error penalty of §4.5,
`base penalty * (0.5 + difficulty score)`.  No such scaling exists in
the source; `compute_error_severity_index` returns the base penalty. -/
def spec_scaled_esi (row : Row) : ℚ :=
  compute_error_severity_index row * (1/2 + compute_match_difficulty row)

/-- Modelled from the spec: behavioral indicators of §4.3 / §6 (the source
never reads any of them). -/
structure Behav where
  FvX : ℚ
  CPR : ℚ
  VARF : ℚ
  HBI : ℚ
  TTD : ℚ
deriving DecidableEq

/-- Modelled from the spec: the per-feature modifier of §4.3. -/
def specModifier (b : Behav) : Feature → ℚ
  | .foul_management => b.FvX
  | .crowd_pressure => 1 + b.CPR * (2/10)
  | .var_overturns => 1 + b.VARF * (3/10)
  | .attendance_pct => 1 + b.HBI * (2/10)
  | .decision_accuracy => 1 - b.TTD * (1/10)
  | _ => 1

/-- Modelled from the spec: the adjusted, re-normalized weight of §4.3. -/
def specAdjustedWeight (m : Mode) (b : Behav) (f : Feature) : ℚ :=
  (WEIGHTS m f * specModifier b f) /
    ((featList.map (fun g => WEIGHTS m g * specModifier b g)).sum)

/-- Modelled from the spec: base rating over the adjusted weights. -/
def spec_base_rating (row : Row) (m : Mode) (b : Behav) : ℚ :=
  (featList.map (fun f => row.getF f * specAdjustedWeight m b f * 10)).sum

/-- Modelled from the spec: `compute_final_rating` as it would read if the
weight set applied were the behaviorally adjusted one of §4.3. -/
def spec_compute_final_rating (row : Row) (b : Behav) (esi_penalty consistency_bonus : ℚ) :
    RatingResult :=
  let mds := compute_match_difficulty row
  let mode := difficulty_category mds
  let fr0 := spec_base_rating row mode b + esi_penalty + consistency_bonus
  let fr1 := if mode = Mode.easy then max fr0 (65/10) else fr0
  let fr2 := max 1 (min 10 fr1)
  { mds := roundTo 3 mds, difficulty_mode := mode, final_rating := roundTo 2 fr2 }

/-! ### Concrete records used in counterexamples and witnesses -/

/-- A record in which every field is absent. -/
def emptyRow : Row := {}

/-- A record in which every scored field is present and equal to 0. -/
def zeroRow : Row :=
  { crowd_pressure := some 0, attendance_pct := some 0, rivalry_intensity := some 0,
    match_importance := some 0, var_overturns := some 0, foul_management := some 0,
    decision_accuracy := some 0, minor_errors := some 0, moderate_errors := some 0,
    major_errors := some 0 }

/-- Zero-fill a record: replace each absent field by an explicit 0. -/
def zeroFill (r : Row) : Row :=
  { crowd_pressure := some (r.crowd_pressure.getD 0),
    attendance_pct := some (r.attendance_pct.getD 0),
    rivalry_intensity := some (r.rivalry_intensity.getD 0),
    match_importance := some (r.match_importance.getD 0),
    var_overturns := some (r.var_overturns.getD 0),
    foul_management := some (r.foul_management.getD 0),
    decision_accuracy := some (r.decision_accuracy.getD 0),
    minor_errors := some (r.minor_errors.getD 0),
    moderate_errors := some (r.moderate_errors.getD 0),
    major_errors := some (r.major_errors.getD 0) }

/-- One minor error, nothing else. -/
def oneMinorRow : Row := { minor_errors := some 1 }

/-- All seven scored features equal to 1 (difficulty 1, hard regime,
base rating 10). -/
def allOnesRow : Row :=
  { crowd_pressure := some 1, attendance_pct := some 1, rivalry_intensity := some 1,
    match_importance := some 1, var_overturns := some 1, foul_management := some 1,
    decision_accuracy := some 1 }

/-- All seven scored features equal to 2. -/
def allTwosRow : Row :=
  { crowd_pressure := some 2, attendance_pct := some 2, rivalry_intensity := some 2,
    match_importance := some 2, var_overturns := some 2, foul_management := some 2,
    decision_accuracy := some 2 }

/-- A medium-difficulty record: difficulty score exactly 0.50, safely in
the interior of the [0.45, 0.55] medium band (0.5 is also exact in binary
floating point, so the source classifies it identically). -/
def mediumRow : Row :=
  { decision_accuracy := some 1, match_importance := some 1, crowd_pressure := some (3/4) }

/-- Spec §6 default behavioral indicators: FvX=1.0, CPR=0.20, VARF=0.10,
HBI=0.10, TTD=0.40. -/
def specDefaultBehav : Behav := ⟨1, 2/10, 1/10, 1/10, 4/10⟩

/-- Five copies of `allOnesRow` for one referee, `match_id` 0..4. -/
def fiveEvents : List Event :=
  [⟨0, 0, allOnesRow⟩, ⟨0, 1, allOnesRow⟩, ⟨0, 2, allOnesRow⟩,
   ⟨0, 3, allOnesRow⟩, ⟨0, 4, allOnesRow⟩]

/-- A single-event dataset whose record has every field absent. -/
def oneEvent : List Event := [⟨0, 0, emptyRow⟩]

/-! ### Helper lemmas -/

theorem ratFloor_eq_intFloor (q : ℚ) : (Rat.floor q : ℤ) = ⌊q⌋ := by
  rw [Rat.floor_def', Rat.floor_def]

theorem roundTo_eq_floor (n : ℕ) (x : ℚ) :
    roundTo n x = ((⌊x * 10 ^ n + 1/2⌋ : ℤ) : ℚ) / 10 ^ n := by
  rw [roundTo, ratFloor_eq_intFloor]

theorem roundTo_mono {n : ℕ} {x y : ℚ} (h : x ≤ y) : roundTo n x ≤ roundTo n y := by
  rw [roundTo_eq_floor, roundTo_eq_floor]
  gcongr

theorem roundTo_eval {n : ℕ} {x : ℚ} (z : ℤ) (h1 : (z : ℚ) ≤ x * 10 ^ n + 1/2)
    (h2 : x * 10 ^ n + 1/2 < z + 1) : roundTo n x = (z : ℚ) / 10 ^ n := by
  rw [roundTo_eq_floor, Int.floor_eq_iff.mpr ⟨h1, by exact_mod_cast h2⟩]

theorem roundTo2_one : roundTo 2 1 = 1 := by
  rw [roundTo_eval 100 (by norm_num) (by norm_num)]; norm_num

theorem roundTo2_ten : roundTo 2 10 = 10 := by
  rw [roundTo_eval 1000 (by norm_num) (by norm_num)]; norm_num

theorem roundTo2_floor65 : roundTo 2 (65/10) = 65/10 := by
  rw [roundTo_eval 650 (by norm_num) (by norm_num)]; norm_num

/-- `max 0 (min 1 w) = q` for an interior `q` forces `w = q`. -/
theorem clamp01_eq_self {w q : ℚ} (h0 : 0 < q) (h1 : q < 1)
    (h : max 0 (min 1 w) = q) : w = q := by
  rcases le_or_lt 1 w with hw | hw
  · rw [min_eq_left hw, max_eq_right (by norm_num : (0:ℚ) ≤ 1)] at h
    linarith
  · rw [min_eq_right hw.le] at h
    rcases le_or_lt w 0 with hw0 | hw0
    · rw [max_eq_left hw0] at h; linarith
    · rw [max_eq_right hw0.le] at h; exact h

/-- Unfolding of the `final_rating` field of `compute_final_rating`. -/
theorem final_rating_eq (row : Row) (esi bonus : ℚ) :
    (compute_final_rating row esi bonus).final_rating =
      roundTo 2 (max 1 (min 10
        (if difficulty_category (compute_match_difficulty row) = Mode.easy
         then max (base_rating row (difficulty_category (compute_match_difficulty row))
            + esi + bonus) (65/10)
         else base_rating row (difficulty_category (compute_match_difficulty row))
            + esi + bonus))) := rfl

/-- The mode field of a rating result is the classified difficulty. -/
theorem difficulty_mode_eq (row : Row) (esi bonus : ℚ) :
    (compute_final_rating row esi bonus).difficulty_mode =
      difficulty_category (compute_match_difficulty row) := rfl

theorem clamp_round_bounds (s : ℚ) :
    1 ≤ roundTo 2 (max 1 (min 10 s)) ∧ roundTo 2 (max 1 (min 10 s)) ≤ 10 := by
  constructor
  · have h : roundTo 2 1 ≤ roundTo 2 (max 1 (min 10 s)) := roundTo_mono (le_max_left _ _)
    rwa [roundTo2_one] at h
  · have h : roundTo 2 (max 1 (min 10 s)) ≤ roundTo 2 10 :=
      roundTo_mono (max_le (by norm_num) (min_le_left _ _))
    rwa [roundTo2_ten] at h

theorem clamp_round_easy_floor (s : ℚ) :
    65/10 ≤ roundTo 2 (max 1 (min 10 (max s (65/10)))) := by
  have h : roundTo 2 (65/10) ≤ roundTo 2 (max 1 (min 10 (max s (65/10)))) :=
    roundTo_mono (le_trans (le_min (by norm_num) (le_max_right _ _)) (le_max_right _ _))
  rwa [roundTo2_floor65] at h

/-- Applying the 6.5 floor before the [1,10] clamp (as the source does) is
extensionally the same as applying it after the clamp (as the spec says). -/
theorem clamp_floor_comm (s : ℚ) :
    max 1 (min 10 (max s (65/10))) = max (max 1 (min 10 s)) (65/10) := by
  rcases le_total s (65/10) with h | h
  · rw [max_eq_right h]
    have h1 : min 10 (65/10 : ℚ) = 65/10 := by norm_num
    rw [h1, max_eq_right (by norm_num : (1:ℚ) ≤ 65/10)]
    have h2 : max 1 (min 10 s) ≤ 65/10 :=
      max_le (by norm_num) (le_trans (min_le_right _ _) h)
    rw [max_eq_right h2]
  · rw [max_eq_left h]
    have h2 : (65/10 : ℚ) ≤ max 1 (min 10 s) :=
      le_trans (le_min (by norm_num) h) (le_max_right _ _)
    rw [max_eq_left h2]

/-- Every pipeline rating result is `compute_final_rating` at its own row. -/
theorem rate_dataframe_mem (events : List Event) (res : RatingResult)
    (h : res ∈ rate_dataframe events) :
    ∃ (row : Row) (esi bonus : ℚ), res = compute_final_rating row esi bonus := by
  unfold rate_dataframe at h
  obtain ⟨p, _, hp⟩ := List.mem_map.mp h
  exact ⟨p.2.row, _, _, hp.symm⟩

theorem roundTo3_zero : roundTo 3 (0 : ℚ) = 0 := by
  rw [roundTo_eval 0 (by norm_num) (by norm_num)]
  norm_num

theorem empty_mode_easy : difficulty_category (compute_match_difficulty emptyRow) = Mode.easy := by
  norm_num [compute_match_difficulty, mdsFeatList, Row.getF, difficultyWeights,
    emptyRow, difficulty_category]

theorem empty_esi_zero : compute_error_severity_index emptyRow = 0 := by
  norm_num [compute_error_severity_index, emptyRow]

theorem allOnes_mode_hard :
    difficulty_category (compute_match_difficulty allOnesRow) = Mode.hard := by
  norm_num [compute_match_difficulty, mdsFeatList, Row.getF, difficultyWeights,
    allOnesRow, difficulty_category]

theorem allOnes_esi_zero : compute_error_severity_index allOnesRow = 0 := by
  norm_num [compute_error_severity_index, allOnesRow]

theorem allOnes_base_ten : base_rating allOnesRow Mode.hard = 10 := by
  norm_num [base_rating, featList, Row.getF, WEIGHTS, allOnesRow]

/-- Step-1 (pre-consistency) final rating of `allOnesRow`: exactly 10. -/
theorem allOnes_pre_final :
    (compute_final_rating allOnesRow (compute_error_severity_index allOnesRow) 0).final_rating
      = 10 := by
  rw [allOnes_esi_zero, final_rating_eq, allOnes_mode_hard, if_neg (by simp),
    allOnes_base_ten]
  have hc : max 1 (min 10 ((10:ℚ) + 0 + 0)) = 10 := by norm_num [min_def, max_def]
  rw [hc, roundTo_eval 1000 (by norm_num) (by norm_num)]
  norm_num

/-- Step-1 final-rating column of `fiveEvents`. -/
theorem fiveEvents_base_col :
    fiveEvents.map (fun e =>
      (compute_final_rating e.row (compute_error_severity_index e.row) 0).final_rating)
      = [10, 10, 10, 10, 10] := by
  simp only [fiveEvents, List.map_cons, List.map_nil, allOnes_pre_final]

theorem sampleVar_tens : sampleVar [10, 10, 10, 10, 10] = 0 := by
  norm_num [sampleVar, sampleMean]

/-- The pipeline's consistency bonus for the last of `fiveEvents`. -/
theorem fiveEvents_bonus :
    bonusAt fiveEvents [10, 10, 10, 10, 10] 4 = 2/10 := by
  have h : bonusAt fiveEvents [10, 10, 10, 10, 10] 4 =
      stdBandBonus (sampleVar [10, 10, 10, 10, 10]) := rfl
  rw [h, sampleVar_tens]
  norm_num [stdBandBonus]

/-- Step-3 (post-consistency) final rating of `allOnesRow` with bonus 0.2:
still 10 — the bonus is absorbed by the clamp. -/
theorem allOnes_post_final :
    (compute_final_rating allOnesRow (compute_error_severity_index allOnesRow)
      (2/10)).final_rating = 10 := by
  rw [allOnes_esi_zero, final_rating_eq, allOnes_mode_hard, if_neg (by simp),
    allOnes_base_ten]
  have hc : max 1 (min 10 ((10:ℚ) + 0 + 2/10)) = 10 := by norm_num [min_def, max_def]
  rw [hc, roundTo_eval 1000 (by norm_num) (by norm_num)]
  norm_num

theorem sampleVar_nonneg (l : List ℚ) : 0 ≤ sampleVar l := by
  cases l with
  | nil => norm_num [sampleVar, sampleMean]
  | cons x xs =>
    apply div_nonneg
    · apply List.sum_nonneg
      intro y hy
      obtain ⟨z, _, rfl⟩ := List.mem_map.mp hy
      positivity
    · have h1 : (1:ℚ) ≤ ((x :: xs).length : ℚ) := by
        rw [List.length_cons]
        exact_mod_cast Nat.succ_le_succ (Nat.zero_le _)
      linarith

/-- For a non-negative rational variance and a positive cut-off,
comparing the real standard deviation with the cut-off is the same as
comparing the variance with the squared cut-off. -/
theorem rat_sqrt_lt_iff (v c : ℚ) (hc : 0 < c) :
    Real.sqrt ((v : ℝ)) < (c : ℝ) ↔ v < c ^ 2 := by
  rw [Real.sqrt_lt' (by exact_mod_cast hc)]
  constructor <;> intro h <;> exact_mod_cast h

/-! ### Claims -/

/-- C5: the regime label is easy iff the difficulty score is `< 0.45`, hard
iff `> 0.55`, and medium otherwise; both boundary values 0.45 and 0.55 map
to medium. -/
theorem C5_theorem : ∀ d : ℚ,
    (difficulty_category d = Mode.easy ↔ d < 45/100) ∧
    (difficulty_category d = Mode.hard ↔ 55/100 < d) ∧
    (difficulty_category d = Mode.medium ↔ 45/100 ≤ d ∧ d ≤ 55/100) ∧
    difficulty_category (45/100) = Mode.medium ∧
    difficulty_category (55/100) = Mode.medium := by
  intro d
  refine ⟨?_, ?_, ?_, ?_, ?_⟩
  · unfold difficulty_category
    split_ifs with h1 h2
    · simpa using h1
    · simpa using h1
    · simpa using h1
  · unfold difficulty_category
    split_ifs with h1 h2
    · simp only [gt_iff_lt] at *
      constructor
      · intro hc; cases hc
      · intro hlt; linarith
    · simpa using h2
    · simpa using h2
  · unfold difficulty_category
    split_ifs with h1 h2
    · constructor
      · intro hc; cases hc
      · rintro ⟨ha, _⟩; linarith
    · constructor
      · intro hc; cases hc
      · rintro ⟨_, hb⟩; simp only [gt_iff_lt] at h2; linarith
    · simp only [true_iff]
      push_neg at h1 h2
      exact ⟨h1, h2⟩
  · norm_num [difficulty_category]
  · norm_num [difficulty_category]

/-- C5 witness: the iff characterization applied at a concrete score. -/
theorem C5_witness : difficulty_category (449999/1000000) = Mode.easy :=
  (C5_theorem (449999/1000000)).1.mpr (by norm_num)

/-- C7 (amended): the difficulty score is the convex-weighted sum of the
seven contextual signals — crowd pressure 0.20, attendance 0.15, rivalry
0.20, importance 0.25, and the remaining THREE signals splitting the residual
0.20 (VAR 0.05, foul management 0.05, decision accuracy 0.10) — clamped to
[0,1] after summation; the output is always in [0,1], and with every signal
equal to 2.0 the output is exactly 1.0. -/
theorem C7_theorem : ∀ r : Row,
    compute_match_difficulty r =
      max 0 (min 1 (r.crowd_pressure.getD 0 * (20/100) + r.attendance_pct.getD 0 * (15/100) +
        r.rivalry_intensity.getD 0 * (20/100) + r.match_importance.getD 0 * (25/100) +
        r.var_overturns.getD 0 * (5/100) + r.foul_management.getD 0 * (5/100) +
        r.decision_accuracy.getD 0 * (10/100))) ∧
    0 ≤ compute_match_difficulty r ∧ compute_match_difficulty r ≤ 1 ∧
    compute_match_difficulty allTwosRow = 1 := by
  intro r
  refine ⟨?_, le_max_left _ _, max_le (by norm_num) (min_le_left _ _), ?_⟩
  · simp only [compute_match_difficulty, mdsFeatList, List.map_cons, List.map_nil,
      List.sum_cons, List.sum_nil, Row.getF, difficultyWeights]
    congr 2
    ring
  · norm_num [compute_match_difficulty, mdsFeatList, Row.getF, difficultyWeights, allTwosRow]

/-- C7 counterexample: the claim says the residual weight 0.20 is split
between TWO remaining signals, i.e. one of the three non-named signals
carries weight 0.  No such two-signal weighting reproduces
`compute_match_difficulty`: all three of VAR overturns, foul management and
decision accuracy have positive weight (0.05, 0.05, 0.10). -/
theorem C7_counterexample :
    ¬ ∃ wv wf wd : ℚ, (wv = 0 ∨ wf = 0 ∨ wd = 0) ∧ wv + wf + wd = 20/100 ∧
      ∀ r : Row, compute_match_difficulty r =
        max 0 (min 1 (r.crowd_pressure.getD 0 * (20/100) + r.attendance_pct.getD 0 * (15/100) +
          r.rivalry_intensity.getD 0 * (20/100) + r.match_importance.getD 0 * (25/100) +
          r.var_overturns.getD 0 * wv + r.foul_management.getD 0 * wf +
          r.decision_accuracy.getD 0 * wd)) := by
  rintro ⟨wv, wf, wd, hz, _, hall⟩
  have hv := hall { var_overturns := some 1 }
  have hf := hall { foul_management := some 1 }
  have hd := hall { decision_accuracy := some 1 }
  norm_num [compute_match_difficulty, mdsFeatList, Row.getF, difficultyWeights] at hv hf hd
  have ev : wv = 1/20 := clamp01_eq_self (by norm_num) (by norm_num) hv.symm
  have ef : wf = 1/20 := clamp01_eq_self (by norm_num) (by norm_num) hf.symm
  have ed : wd = 1/10 := clamp01_eq_self (by norm_num) (by norm_num) hd.symm
  rcases hz with h | h | h
  · rw [h] at ev; norm_num at ev
  · rw [h] at ef; norm_num at ef
  · rw [h] at ed; norm_num at ed

/-- C9: in each ratio-based subscore of `match_difficulty .py`, a
non-positive league-average denominator yields 0, for all numerators. -/
theorem C9_theorem : ∀ a b c d e f g h i : ℚ,
    (c ≤ 0 → compute_foul_intensity a b c = 0) ∧
    (f ≤ 0 → compute_var_intensity d e f = 0) ∧
    (i ≤ 0 → compute_dissent_score g h i = 0) := by
  intro a b c d e f g h i
  refine ⟨fun hc => ?_, fun hf => ?_, fun hi => ?_⟩
  · rw [compute_foul_intensity, if_pos hc]
  · rw [compute_var_intensity, if_pos hf]
  · rw [compute_dissent_score, if_pos hi]

/-- C9 witness: concrete degenerate denominators. -/
theorem C9_witness :
    compute_foul_intensity 5 7 0 = 0 ∧ compute_var_intensity 3 4 0 = 0 ∧
    compute_dissent_score 2 1 (-1) = 0 :=
  ⟨(C9_theorem 5 7 0 0 0 0 0 0 0).1 (by norm_num),
   (C9_theorem 0 0 0 3 4 0 0 0 0).2.1 (by norm_num),
   (C9_theorem 0 0 0 0 0 0 2 1 (-1)).2.2 (by norm_num)⟩

/-- C1 counterexample: one minor error in a zero-difficulty match.  The
penalty the code computes (and feeds to `compute_final_rating` in
`rate_dataframe`) is the unscaled base penalty -0.05, not the claimed
`-0.05 * (0.5 + 0) = -0.025`. -/
theorem C1_counterexample :
    compute_error_severity_index oneMinorRow ≠ spec_scaled_esi oneMinorRow := by
  norm_num [compute_error_severity_index, spec_scaled_esi, oneMinorRow,
    compute_match_difficulty, mdsFeatList, Row.getF, difficultyWeights]

/-- C1 (amended): the error-severity penalty is exactly the base penalty
`minor*(-0.05) + moderate*(-0.15) + major*(-0.40)`, with no difficulty
scaling — identical error counts yield the identical penalty regardless of
any contextual (difficulty) field. -/
theorem C1_theorem : ∀ r r' : Row,
    compute_error_severity_index r =
      r.minor_errors.getD 0 * (-(5/100)) + r.moderate_errors.getD 0 * (-(15/100)) +
      r.major_errors.getD 0 * (-(40/100)) ∧
    (r.minor_errors = r'.minor_errors → r.moderate_errors = r'.moderate_errors →
      r.major_errors = r'.major_errors →
      compute_error_severity_index r = compute_error_severity_index r') := by
  intro r r'
  refine ⟨rfl, fun h1 h2 h3 => ?_⟩
  unfold compute_error_severity_index
  rw [h1, h2, h3]

/-- C1 witness: the same single minor error in a maximal-difficulty record
and in an empty record carries the same penalty. -/
theorem C1_witness :
    compute_error_severity_index oneMinorRow =
      compute_error_severity_index
        { minor_errors := some 1, crowd_pressure := some 1, attendance_pct := some 1,
          rivalry_intensity := some 1, match_importance := some 1 } :=
  (C1_theorem oneMinorRow
    { minor_errors := some 1, crowd_pressure := some 1, attendance_pct := some 1,
      rivalry_intensity := some 1, match_importance := some 1 }).2 rfl rfl rfl

/-- Unfolding of the `final_rating` field of `spec_compute_final_rating`. -/
theorem spec_final_rating_eq (row : Row) (b : Behav) (esi bonus : ℚ) :
    (spec_compute_final_rating row b esi bonus).final_rating =
      roundTo 2 (max 1 (min 10
        (if difficulty_category (compute_match_difficulty row) = Mode.easy
         then max (spec_base_rating row (difficulty_category (compute_match_difficulty row)) b
            + esi + bonus) (65/10)
         else spec_base_rating row (difficulty_category (compute_match_difficulty row)) b
            + esi + bonus))) := rfl

/-- C2 counterexample: a medium-difficulty event (difficulty exactly 0.50)
with decision accuracy 1, importance 1, crowd pressure 0.75, behavioral
indicators at the spec's §6 defaults.  The code rates it 5.25 (base weights
applied unmodified); with the claimed behaviorally adjusted, re-normalized
weights it would be 5.17. -/
theorem C2_counterexample :
    (compute_final_rating mediumRow 0 0).final_rating ≠
      (spec_compute_final_rating mediumRow specDefaultBehav 0 0).final_rating := by
  have hmode : difficulty_category (compute_match_difficulty mediumRow) = Mode.medium := by
    norm_num [compute_match_difficulty, mdsFeatList, Row.getF, difficultyWeights,
      mediumRow, difficulty_category]
  have hcode : (compute_final_rating mediumRow 0 0).final_rating = 21/4 := by
    rw [final_rating_eq, hmode, if_neg (by simp)]
    have hb : base_rating mediumRow Mode.medium = 21/4 := by
      norm_num [base_rating, featList, Row.getF, WEIGHTS, mediumRow]
    rw [hb]
    have hc : max 1 (min 10 ((21/4:ℚ) + 0 + 0)) = 21/4 := by
      norm_num [min_def, max_def]
    rw [hc, roundTo_eval 525 (by norm_num) (by norm_num)]
    norm_num
  have hspec : (spec_compute_final_rating mediumRow specDefaultBehav 0 0).final_rating
      = 517/100 := by
    rw [spec_final_rating_eq, hmode, if_neg (by simp)]
    have hb : spec_base_rating mediumRow Mode.medium specDefaultBehav = 2570/497 := by
      norm_num [spec_base_rating, specAdjustedWeight, specModifier, featList, Row.getF,
        WEIGHTS, mediumRow, specDefaultBehav]
    rw [hb]
    have hc : max 1 (min 10 ((2570/497:ℚ) + 0 + 0)) = 2570/497 := by
      norm_num [min_def, max_def]
    rw [hc, roundTo_eval 517 (by norm_num) (by norm_num)]
    norm_num
  rw [hcode, hspec]
  norm_num

/-- C2 (amended): the weight set applied to the performance subscores is the
selected regime's base weight set, unmodified by any behavioral indicator and
never re-normalized; each regime's base weights already sum to exactly 1. -/
theorem C2_theorem : ∀ m : Mode,
    (featList.map (WEIGHTS m)).sum = 1 ∧
    ∀ row : Row,
      base_rating row m = (featList.map (fun f => row.getF f * WEIGHTS m f * 10)).sum := by
  intro m
  refine ⟨?_, fun row => rfl⟩
  cases m <;> norm_num [featList, WEIGHTS]

/-- C8 counterexample: a record in which every required field is absent is
scored without any error: it is silently evaluated like the all-zero record,
receives difficulty 0 and (easy floor) final rating 6.5. -/
theorem C8_counterexample :
    compute_match_difficulty emptyRow = compute_match_difficulty zeroRow ∧
    compute_error_severity_index emptyRow = 0 ∧
    (compute_final_rating emptyRow 0 0).final_rating = 65/10 := by
  refine ⟨?_, ?_, ?_⟩
  · norm_num [compute_match_difficulty, mdsFeatList, Row.getF, difficultyWeights,
      emptyRow, zeroRow]
  · norm_num [compute_error_severity_index, emptyRow]
  · have hmode : difficulty_category (compute_match_difficulty emptyRow) = Mode.easy := by
      norm_num [compute_match_difficulty, mdsFeatList, Row.getF, difficultyWeights,
        emptyRow, difficulty_category]
    rw [final_rating_eq, hmode, if_pos rfl]
    have hb : base_rating emptyRow Mode.easy = 0 := by
      norm_num [base_rating, featList, Row.getF, WEIGHTS, emptyRow]
    rw [hb]
    have hc : max 1 (min 10 (max ((0:ℚ) + 0 + 0) (65/10))) = 65/10 := by
      norm_num [min_def, max_def]
    rw [hc]
    exact roundTo2_floor65

/-- C8 (amended): no typed missing-field error exists; every field is read
through `row.get(field, 0)`, so an absent field is silently treated as 0 —
each scoring stage evaluates any record exactly like its zero-filled
completion. -/
theorem C8_theorem : ∀ (r : Row) (esi bonus : ℚ),
    compute_match_difficulty r = compute_match_difficulty (zeroFill r) ∧
    compute_error_severity_index r = compute_error_severity_index (zeroFill r) ∧
    compute_final_rating r esi bonus = compute_final_rating (zeroFill r) esi bonus := by
  intro r esi bonus
  have hg : ∀ f, (zeroFill r).getF f = r.getF f := by
    intro f
    cases f <;> simp [zeroFill, Row.getF]
  have hmds : compute_match_difficulty (zeroFill r) = compute_match_difficulty r := by
    simp only [compute_match_difficulty, hg]
  have hbase : ∀ m, base_rating (zeroFill r) m = base_rating r m := by
    intro m
    simp only [base_rating, hg]
  have hesi : compute_error_severity_index (zeroFill r) = compute_error_severity_index r := by
    simp [compute_error_severity_index, zeroFill]
  refine ⟨hmds.symm, hesi.symm, ?_⟩
  simp only [compute_final_rating, hmds, hbase]

/-- C3 counterexample: five identical maximal events for one referee.  At
position 4 the consistency adjustment is defined and equals +0.20, the
pre-consistency clamped rating is 10, yet the pipeline's post-consistency
rating is 10, not 10 + 0.20: the adjustment is added before the clamp, so
the clamped sum — not "clamped rating plus adjustment" — is returned, and
the result never leaves [1,10]. -/
theorem C3_counterexample :
    bonusAt fiveEvents (fiveEvents.map (fun e =>
      (compute_final_rating e.row (compute_error_severity_index e.row) 0).final_rating)) 4
      = 2/10 ∧
    (compute_final_rating allOnesRow (compute_error_severity_index allOnesRow) 0).final_rating
      = 10 ∧
    ((rate_dataframe fiveEvents).map RatingResult.final_rating)[4]? = some 10 ∧
    (10 : ℚ) ≠ 10 + 2/10 := by
  refine ⟨?_, allOnes_pre_final, ?_, by norm_num⟩
  · rw [fiveEvents_base_col]
    exact fiveEvents_bonus
  · have h : ((rate_dataframe fiveEvents).map RatingResult.final_rating)[4]? =
        some ((compute_final_rating allOnesRow (compute_error_severity_index allOnesRow)
          (bonusAt fiveEvents (fiveEvents.map (fun e =>
            (compute_final_rating e.row (compute_error_severity_index e.row) 0).final_rating))
            4)).final_rating) := rfl
    rw [h, fiveEvents_base_col, fiveEvents_bonus, allOnes_post_final]

/-- C3 (amended): the post-consistency final rating is
`clamp(floor?(base + penalty + adjustment))` — the consistency adjustment is
added to the raw sum before the easy-mode floor and the [1,10] clamp, the
result is clamped, and therefore always lies in [1,10]. -/
theorem C3_theorem : ∀ (row : Row) (esi bonus : ℚ),
    (compute_final_rating row esi bonus).final_rating =
      roundTo 2 (max 1 (min 10
        (if difficulty_category (compute_match_difficulty row) = Mode.easy
         then max (base_rating row (difficulty_category (compute_match_difficulty row))
            + esi + bonus) (65/10)
         else base_rating row (difficulty_category (compute_match_difficulty row))
            + esi + bonus))) ∧
    1 ≤ (compute_final_rating row esi bonus).final_rating ∧
    (compute_final_rating row esi bonus).final_rating ≤ 10 := by
  intro row esi bonus
  refine ⟨final_rating_eq row esi bonus, ?_, ?_⟩
  · rw [final_rating_eq]
    exact (clamp_round_bounds _).1
  · rw [final_rating_eq]
    exact (clamp_round_bounds _).2

/-- C4: the combined rating is clamped to [1,10]; under the easy regime the
result equals the fairness floor `max(·, 6.5)` applied after the general
clamp (the source applies the floor before the clamp, which is extensionally
the same), so the floor can only raise a rating; and whenever the raw
combined sum is below 6.5 under the easy regime the result is exactly 6.5. -/
theorem C4_theorem : ∀ (row : Row) (esi bonus : ℚ),
    (1 ≤ (compute_final_rating row esi bonus).final_rating ∧
     (compute_final_rating row esi bonus).final_rating ≤ 10) ∧
    (difficulty_category (compute_match_difficulty row) = Mode.easy →
      (compute_final_rating row esi bonus).final_rating =
        roundTo 2 (max (max 1 (min 10
          (base_rating row (difficulty_category (compute_match_difficulty row)) + esi + bonus)))
          (65/10)) ∧
      roundTo 2 (max 1 (min 10
        (base_rating row (difficulty_category (compute_match_difficulty row)) + esi + bonus)))
        ≤ (compute_final_rating row esi bonus).final_rating) ∧
    (difficulty_category (compute_match_difficulty row) = Mode.easy →
      base_rating row (difficulty_category (compute_match_difficulty row)) + esi + bonus < 65/10 →
      (compute_final_rating row esi bonus).final_rating = 65/10) := by
  intro row esi bonus
  refine ⟨?_, fun he => ⟨?_, ?_⟩, fun he hlt => ?_⟩
  · rw [final_rating_eq]
    exact ⟨(clamp_round_bounds _).1, (clamp_round_bounds _).2⟩
  · rw [final_rating_eq, if_pos he, clamp_floor_comm]
  · rw [final_rating_eq, if_pos he]
    refine roundTo_mono ?_
    gcongr
    exact le_max_left _ _
  · rw [final_rating_eq, if_pos he, max_eq_right hlt.le]
    have hc : max 1 (min 10 (65/10 : ℚ)) = 65/10 := by norm_num [min_def, max_def]
    rw [hc]
    exact roundTo2_floor65

/-- C4 witness: the empty record — easy regime, raw sum 0 below 6.5 — gets
exactly 6.5. -/
theorem C4_witness :
    difficulty_category (compute_match_difficulty emptyRow) = Mode.easy ∧
    base_rating emptyRow (difficulty_category (compute_match_difficulty emptyRow)) + 0 + 0
      < 65/10 ∧
    (compute_final_rating emptyRow 0 0).final_rating = 65/10 := by
  have hb : base_rating emptyRow (difficulty_category (compute_match_difficulty emptyRow))
      + 0 + 0 < 65/10 := by
    rw [empty_mode_easy]
    norm_num [base_rating, featList, Row.getF, WEIGHTS, emptyRow]
  exact ⟨empty_mode_easy, hb, (C4_theorem emptyRow 0 0).2.2 empty_mode_easy hb⟩

/-- C10 (implicit): every rating produced by the full two-pass pipeline lies
in [1,10], and any event the pipeline classifies as easy gets at least 6.5 —
even after a negative consistency adjustment — because the adjustment enters
before the fairness floor and the clamp. -/
theorem C10_theorem : ∀ (events : List Event) (res : RatingResult),
    res ∈ rate_dataframe events →
    (res.difficulty_mode = Mode.easy → 65/10 ≤ res.final_rating) ∧
    1 ≤ res.final_rating ∧ res.final_rating ≤ 10 := by
  intro events res h
  obtain ⟨row, esi, bonus, rfl⟩ := rate_dataframe_mem events res h
  refine ⟨fun he => ?_, ?_, ?_⟩
  · rw [difficulty_mode_eq] at he
    rw [final_rating_eq, if_pos he]
    exact clamp_round_easy_floor _
  · rw [final_rating_eq]
    exact (clamp_round_bounds _).1
  · rw [final_rating_eq]
    exact (clamp_round_bounds _).2

/-- C10 witness: the one-event pipeline over the empty record produces an
easy-mode rating of 6.5, inside [1,10]. -/
theorem C10_witness :
    (65/10 : ℚ) ≤ (compute_final_rating emptyRow 0 0).final_rating ∧
    1 ≤ (compute_final_rating emptyRow 0 0).final_rating ∧
    (compute_final_rating emptyRow 0 0).final_rating ≤ 10 := by
  have hrd : rate_dataframe oneEvent =
      [compute_final_rating emptyRow (compute_error_severity_index emptyRow) 0] := rfl
  have hm : compute_final_rating emptyRow 0 0 ∈ rate_dataframe oneEvent := by
    rw [hrd, empty_esi_zero]
    exact List.mem_singleton.mpr rfl
  have h := C10_theorem oneEvent (compute_final_rating emptyRow 0 0) hm
  refine ⟨h.1 ?_, h.2.1, h.2.2⟩
  rw [difficulty_mode_eq]
  exact empty_mode_easy

/-- C6: for any ordered referee history, the consistency adjustment is 0 at
positions 0..3; at every position ≥ 4 it is determined by the sample
standard deviation of the trailing 5 final ratings through strict-< bands
(< 0.15 → +0.20, < 0.30 → +0.10, < 0.50 → 0, otherwise -0.15); the window
[7,7,7,7,7] (std 0) yields +0.20 and [5,6,7,8,9] (std ≈ 1.58) yields
-0.15. -/
theorem C6_theorem : ∀ (ratings : List ℚ) (i : ℕ),
    (i < 4 → compute_consistency_bonus ratings i = 0) ∧
    (4 ≤ i → compute_consistency_bonus ratings i =
      (if Real.sqrt ((sampleVar (window5 ratings i) : ℝ)) < 15/100 then 20/100
       else if Real.sqrt ((sampleVar (window5 ratings i) : ℝ)) < 30/100 then 10/100
       else if Real.sqrt ((sampleVar (window5 ratings i) : ℝ)) < 50/100 then 0
       else -(15/100))) ∧
    compute_consistency_bonus [7, 7, 7, 7, 7] 4 = 20/100 ∧
    compute_consistency_bonus [5, 6, 7, 8, 9] 4 = -(15/100) := by
  intro ratings i
  refine ⟨fun hi => ?_, fun hi => ?_, ?_, ?_⟩
  · simp only [compute_consistency_bonus]
    rw [if_pos hi]
  · simp only [compute_consistency_bonus]
    rw [if_neg (by omega)]
    have hv0 : 0 ≤ sampleVar (window5 ratings i) := sampleVar_nonneg _
    have e1 : Real.sqrt ((sampleVar (window5 ratings i) : ℝ)) < 15/100 ↔
        sampleVar (window5 ratings i) < (15/100 : ℚ) ^ 2 := by
      have h := rat_sqrt_lt_iff (sampleVar (window5 ratings i)) (15/100) (by norm_num)
      rwa [show (((15/100 : ℚ)) : ℝ) = 15/100 by norm_num] at h
    have e2 : Real.sqrt ((sampleVar (window5 ratings i) : ℝ)) < 30/100 ↔
        sampleVar (window5 ratings i) < (30/100 : ℚ) ^ 2 := by
      have h := rat_sqrt_lt_iff (sampleVar (window5 ratings i)) (30/100) (by norm_num)
      rwa [show (((30/100 : ℚ)) : ℝ) = 30/100 by norm_num] at h
    have e3 : Real.sqrt ((sampleVar (window5 ratings i) : ℝ)) < 50/100 ↔
        sampleVar (window5 ratings i) < (50/100 : ℚ) ^ 2 := by
      have h := rat_sqrt_lt_iff (sampleVar (window5 ratings i)) (50/100) (by norm_num)
      rwa [show (((50/100 : ℚ)) : ℝ) = 50/100 by norm_num] at h
    unfold stdBandBonus
    by_cases h1 : sampleVar (window5 ratings i) < (15/100 : ℚ) ^ 2
    · rw [if_pos h1, if_pos (e1.mpr h1)]
    · rw [if_neg h1, if_neg (fun hc => h1 (e1.mp hc))]
      by_cases h2 : sampleVar (window5 ratings i) < (30/100 : ℚ) ^ 2
      · rw [if_pos h2, if_pos (e2.mpr h2)]
      · rw [if_neg h2, if_neg (fun hc => h2 (e2.mp hc))]
        by_cases h3 : sampleVar (window5 ratings i) < (50/100 : ℚ) ^ 2
        · rw [if_pos h3, if_pos (e3.mpr h3)]
        · rw [if_neg h3, if_neg (fun hc => h3 (e3.mp hc))]
  · have hw : window5 [7, 7, 7, 7, 7] 4 = [(7:ℚ), 7, 7, 7, 7] := rfl
    simp only [compute_consistency_bonus]
    rw [if_neg (by omega), hw]
    have hv : sampleVar [(7:ℚ), 7, 7, 7, 7] = 0 := by norm_num [sampleVar, sampleMean]
    rw [hv]
    norm_num [stdBandBonus]
  · have hw : window5 [5, 6, 7, 8, 9] 4 = [(5:ℚ), 6, 7, 8, 9] := rfl
    simp only [compute_consistency_bonus]
    rw [if_neg (by omega), hw]
    have hv : sampleVar [(5:ℚ), 6, 7, 8, 9] = 5/2 := by norm_num [sampleVar, sampleMean]
    rw [hv]
    norm_num [stdBandBonus]

/-- C6 witness: position 2 of a 5-long history gets adjustment 0; position 4
of the constant history gets the std-band value of its full window. -/
theorem C6_witness :
    compute_consistency_bonus [5, 6, 7, 8, 9] 2 = 0 ∧
    compute_consistency_bonus [7, 7, 7, 7, 7] 4 =
      (if Real.sqrt ((sampleVar (window5 [7, 7, 7, 7, 7] 4) : ℝ)) < 15/100 then 20/100
       else if Real.sqrt ((sampleVar (window5 [7, 7, 7, 7, 7] 4) : ℝ)) < 30/100 then 10/100
       else if Real.sqrt ((sampleVar (window5 [7, 7, 7, 7, 7] 4) : ℝ)) < 50/100 then 0
       else -(15/100)) :=
  ⟨(C6_theorem [5, 6, 7, 8, 9] 2).1 (by omega),
   (C6_theorem [7, 7, 7, 7, 7] 4).2.1 (by omega)⟩

end RefRating
